import Mathlib

/-!
# terraform-provider-hyperkit: the `hyperkit_vm` resource

A shallow embedding of `resource_hyperkit_vm.go`.

* `schema.ResourceData` is a record of the resource's fields together with its
  identity.  For `state` three layers are kept, because `HasChange` compares the
  value of the prior state with the planned value while `Get` reads the merged
  view that also contains what `Set` wrote.
* The hyperkit library, the UUID generator and the machine they act on are
  external.  They are a parameter (`Library`) over an arbitrary world type `σ`;
  every handle method receives the world and the handle and returns the new
  world (and the mutated handle).  Theorems quantify over every `Library`.
* Each CRUD function returns an `Outcome`: the error (if any), the descriptor as
  it is left, the world, and the handle methods it invoked, in order.
-/

namespace HyperKitProvider

/-! ## Constants and validation -/

def stateRunning : String := "running"

def stateStopped : String := "stopped"

/-- The keys of the package-level map `states` (its values are empty structs),
in the sorted order in which `fmt` prints a map. -/
def states : List String := [stateRunning, stateStopped]

/-- The text `fmt` produces for `states` under the verb `%q`. -/
def statesQuoted : String := "map[\"running\":\x7b\x7d \"stopped\":\x7b\x7d]"

/-- The `ValidateFunc` of the `state` field: warnings and errors (their
messages) for the value `v` of the field named `k`. -/
def stateValidateFunc (v : String) (_k : String) : List String × List String :=
  if v ∈ states then
    ([], [])
  else
    ([], ["unknown state " ++ v ++ ", must be one of " ++ statesQuoted])

/-! ## The resource data -/

/-- One element of the `disk_image` set. -/
structure DiskImage where
  path : String
  size : Int
deriving DecidableEq, Repr

/-- The `schema.ResourceData` of a `hyperkit_vm`.  `uuid` is `none` when
`GetOkExists("uuid")` reports the key as not set.  `disk_image` is the set in the
order `Set.List()` yields it.  `stateOld` and `stateNew` are the two values
`GetChange("state")` returns; `stateSet` is what `Set("state", _)` wrote, if
anything.  An unset string reads as `""`. -/
structure ResourceData where
  id : String
  name : String
  cpus : Int
  memory : Int
  pid : Int
  uuid : Option String
  kernel : String
  initrd : String
  disk_image : List DiskImage
  iso_images : List String
  stateOld : String
  stateNew : String
  stateSet : Option String
  command_line : String
  ip_address : String
deriving DecidableEq, Repr

namespace ResourceData

/-- `d.SetId(v)`. -/
def SetId (d : ResourceData) (v : String) : ResourceData := { d with id := v }

/-- `d.Set("uuid", v)`. -/
def SetUUID (d : ResourceData) (v : String) : ResourceData := { d with uuid := some v }

/-- `d.Set("pid", v)`. -/
def SetPid (d : ResourceData) (v : Int) : ResourceData := { d with pid := v }

/-- `d.Set("state", v)`. -/
def SetState (d : ResourceData) (v : String) : ResourceData := { d with stateSet := some v }

/-- `d.Get("state").(string)`: the written value if there is one, else the
planned one. -/
def GetState (d : ResourceData) : String := d.stateSet.getD d.stateNew

/-- `d.HasChange("state")`: the prior and the planned value differ. -/
def HasChangeState (d : ResourceData) : Bool := d.stateOld != d.stateNew

end ResourceData

/-- The provider configuration (`provider.go`). -/
structure Config where
  HyperKitBin : String
  VPNKitSocket : String
  StateDir : String
  Console : Int
deriving DecidableEq, Repr

/-! ## The external library -/

/-- The `hyperkit.HyperKit` handle: the fields this provider assigns, and `rest`
for everything else the library keeps in it.  `δ` is the library's disk type. -/
structure HyperKit (δ ι : Type) where
  CPUs : Int
  Memory : Int
  Kernel : String
  Initrd : String
  UUID : String
  VPNKitUUID : String
  Pid : Int
  Disks : List δ
  ISOImages : List String
  rest : ι

/-- What a handle method that may fail leaves behind. -/
structure Effect (σ δ ι : Type) where
  err : Option String
  vm : HyperKit δ ι
  world : σ

/-- The external collaborators.  `New` and `NewDisk` inspect the world;
`Start`, `Stop`, `IsRunning` and `Remove` are the methods of a handle;
`NewRandom` is `uuid.NewRandom` followed by `String()`. -/
structure Library (σ δ ι : Type) where
  New : String → String → String → σ → Except String (HyperKit δ ι)
  NewDisk : String → Int → σ → Except String δ
  Start : HyperKit δ ι → String → σ → Effect σ δ ι
  Stop : HyperKit δ ι → σ → Effect σ δ ι
  IsRunning : HyperKit δ ι → σ → Bool × σ
  Remove : HyperKit δ ι → Bool → σ → Option String × σ
  NewRandom : σ → Except String String × σ

/-- A handle method invoked by the provider. -/
inductive Call where
  | start (cmdline : String)
  | stop
  | isRunning
  | remove (force : Bool)
deriving DecidableEq, Repr

/-- The result of a CRUD function. -/
structure Outcome (σ : Type) where
  err : Option String
  d : ResourceData
  world : σ
  calls : List Call

/-- The outcome `o` of a tail call, with the calls made before it. -/
def Outcome.after {σ : Type} (before : List Call) (o : Outcome σ) : Outcome σ :=
  { o with calls := before ++ o.calls }

variable {σ δ ι : Type}

/-! ## The provider -/

/-- The loop of `createHyperKitConfig` over `rawSet.List()`. -/
def createHyperKitConfig_disks (lib : Library σ δ ι) (w : σ) :
    List DiskImage → HyperKit δ ι → Except String (HyperKit δ ι)
  | [], vm => .ok vm
  | data :: more, vm =>
    match lib.NewDisk data.path data.size w with
    | .error err => .error ("failed to create instance of hyperkit disk image, " ++ err)
    | .ok disk => createHyperKitConfig_disks lib w more { vm with Disks := vm.Disks ++ [disk] }

def createHyperKitConfig (lib : Library σ δ ι) (d : ResourceData) (m : Config) (w : σ) :
    Except String (HyperKit δ ι) :=
  match lib.New m.HyperKitBin m.VPNKitSocket m.StateDir w with
  | .error err => .error ("failed to create instance of hyperkit, " ++ err)
  | .ok vm0 =>
    let vm : HyperKit δ ι :=
      { vm0 with
        CPUs := d.cpus, Memory := d.memory, Kernel := d.kernel, Initrd := d.initrd,
        UUID := d.id, VPNKitUUID := d.id, Pid := d.pid }
    match createHyperKitConfig_disks lib w d.disk_image vm with
    | .error err => .error err
    | .ok vm1 => .ok { vm1 with ISOImages := d.iso_images }

def resourceHyperKitVMRead (lib : Library σ δ ι) (d : ResourceData) (m : Config) (w : σ) :
    Outcome σ :=
  match createHyperKitConfig lib d m w with
  | .error err => ⟨some ("failed to create hyperkit instance, " ++ err), d, w, []⟩
  | .ok vm =>
    let r := lib.IsRunning vm w
    if !r.1 then
      ⟨none, d.SetState stateStopped, r.2, [Call.isRunning]⟩
    else
      ⟨none, d, r.2, [Call.isRunning]⟩

/-- The first statement of `resourceHyperKitVMCreate`: the identity is the
supplied `uuid`, or else a random one that is also stored in `uuid`. -/
def resourceHyperKitVMCreate_identity (lib : Library σ δ ι) (d : ResourceData) (w : σ) :
    Option String × ResourceData × σ :=
  match d.uuid with
  | some rawID => (none, d.SetId rawID, w)
  | none =>
    match lib.NewRandom w with
    | (.error err, w1) => (some ("failed to generate uuid, " ++ err), d.SetId "", w1)
    | (.ok rawUUID, w1) => (none, (d.SetUUID rawUUID).SetId rawUUID, w1)

def resourceHyperKitVMCreate (lib : Library σ δ ι) (d : ResourceData) (m : Config) (w : σ) :
    Outcome σ :=
  match resourceHyperKitVMCreate_identity lib d w with
  | (some err, d1, w1) => ⟨some err, d1, w1, []⟩
  | (none, d1, w1) =>
    match createHyperKitConfig lib d1 m w1 with
    | .error err => ⟨some ("failed to create hyperkit instance, " ++ err), d1.SetId "", w1, []⟩
    | .ok vm =>
      let s := lib.Start vm d1.command_line w1
      match s.err with
      | some err =>
        ⟨some ("failed to start hyperkit vm, " ++ err), d1.SetId "", s.world,
          [Call.start d1.command_line]⟩
      | none =>
        let d2 := d1.SetPid s.vm.Pid
        if d2.GetState = stateStopped then
          let t := lib.Stop s.vm s.world
          match t.err with
          | some err =>
            ⟨some ("failed to stop hyperkit vm, " ++ err), d2, t.world,
              [Call.start d1.command_line, Call.stop]⟩
          | none =>
            (resourceHyperKitVMRead lib d2 m t.world).after
              [Call.start d1.command_line, Call.stop]
        else
          (resourceHyperKitVMRead lib d2 m s.world).after [Call.start d1.command_line]

def resourceHyperKitVMUpdate (lib : Library σ δ ι) (d : ResourceData) (m : Config) (w : σ) :
    Outcome σ :=
  match createHyperKitConfig lib d m w with
  | .error err => ⟨some ("failed to create hyperkit instance, " ++ err), d, w, []⟩
  | .ok vm =>
    if d.HasChangeState then
      if d.GetState = stateRunning then
        let s := lib.Start vm d.command_line w
        match s.err with
        | some err =>
          ⟨some ("failed to start hyperkit vm, " ++ err), d, s.world,
            [Call.start d.command_line]⟩
        | none =>
          (resourceHyperKitVMRead lib (d.SetState stateRunning) m s.world).after
            [Call.start d.command_line]
      else if d.GetState = stateStopped then
        let t := lib.Stop vm w
        match t.err with
        | some err => ⟨some ("failed to start hyperkit vm, " ++ err), d, t.world, [Call.stop]⟩
        | none =>
          (resourceHyperKitVMRead lib (d.SetState stateStopped) m t.world).after [Call.stop]
      else
        resourceHyperKitVMRead lib d m w
    else
      resourceHyperKitVMRead lib d m w

def resourceHyperKitVMDelete (lib : Library σ δ ι) (d : ResourceData) (m : Config) (w : σ) :
    Outcome σ :=
  match createHyperKitConfig lib d m w with
  | .error err => ⟨some ("failed to create hyperkit instance, " ++ err), d, w, []⟩
  | .ok vm =>
    let t := lib.Stop vm w
    match t.err with
    | some err => ⟨some ("failed to stop hyperkit vm, " ++ err), d, t.world, [Call.stop]⟩
    | none =>
      let r := lib.Remove t.vm true t.world
      match r.1 with
      | some err =>
        ⟨some ("failed to remove hyperkit state, " ++ err), d, r.2,
          [Call.stop, Call.remove true]⟩
      | none => ⟨none, d, r.2, [Call.stop, Call.remove true]⟩

/-! ## A small simulated machine, for concrete runs -/

/-- A world with at most one VM process: the pid of the process that runs (if
any), the pid the next launch gets, the text the UUID generator yields next (if
it has entropy), and switches that make a library call fail. -/
structure Sim where
  alive : Option Int
  nextPid : Int
  entropy : Option String
  failNew : Bool
  failStart : Bool
  failStop : Bool
  failRemove : Bool
deriving DecidableEq, Repr

/-- A library over `Sim`; disks are kept as declared and the handle has no
further fields. -/
def simLib : Library Sim DiskImage Unit where
  New := fun _ _ _ w =>
    if w.failNew then .error "binary not found" else .ok ⟨1, 1024, "", "", "", "", 0, [], [], ()⟩
  NewDisk := fun path size _ => .ok ⟨path, size⟩
  Start := fun vm _ w =>
    if w.failStart then ⟨some "launch failed", vm, w⟩
    else ⟨none, { vm with Pid := w.nextPid },
      { w with alive := some w.nextPid, nextPid := w.nextPid + 1 }⟩
  Stop := fun vm w =>
    if w.failStop then ⟨some "shutdown failed", vm, w⟩ else ⟨none, vm, { w with alive := none }⟩
  IsRunning := fun vm w => (decide (w.alive = some vm.Pid), w)
  Remove := fun _ _ w => if w.failRemove then (some "removal failed", w) else (none, w)
  NewRandom := fun w =>
    match w.entropy with
    | none => (.error "no entropy", w)
    | some u => (.ok u, w)

/-- A machine on which nothing runs and nothing fails. -/
def simIdle : Sim := ⟨none, 4242, some "6ba7b810-9dad-41d1-80b4-00c04fd430c8", false, false, false, false⟩

/-- A machine on which the VM runs as process 4242. -/
def simBusy : Sim := { simIdle with alive := some 4242, nextPid := 4243 }

def simConfig : Config := ⟨"hyperkit", "auto", "", 0⟩

/-- The descriptor of the end-to-end scenarios, with `state` unset and no
`uuid` supplied. -/
def simData : ResourceData :=
  { id := "", name := "vm", cpus := 1, memory := 1024, pid := 0, uuid := none,
    kernel := "k", initrd := "i", disk_image := [⟨"d.img", 1073741824⟩],
    iso_images := ["boot.iso"], stateOld := "", stateNew := "", stateSet := none,
    command_line := "console=ttyS0", ip_address := "" }

/-- The scenario descriptor after a default create: identity and `uuid`
assigned, pid 4242. -/
def simCreated : ResourceData :=
  { simData with
    id := "6ba7b810-9dad-41d1-80b4-00c04fd430c8",
    uuid := some "6ba7b810-9dad-41d1-80b4-00c04fd430c8", pid := 4242 }

/-- The created descriptor in an update that changes `state` from "stopped" to
"running". -/
def simStoppedToRunning : ResourceData :=
  { simCreated with stateOld := "stopped", stateNew := "running" }

/-- The created descriptor in an update that changes `state` from "running" to
"stopped". -/
def simRunningToStopped : ResourceData :=
  { simCreated with stateOld := "running", stateNew := "stopped" }

/-- The created descriptor, whose `state` was left unset at creation, in an
update that declares `state` as "running". -/
def simUnsetToRunning : ResourceData :=
  { simCreated with stateOld := "", stateNew := "running" }

/-- The scenario descriptor declared "stopped". -/
def simDeclaredStopped : ResourceData := { simData with stateNew := "stopped" }

/-- The scenario descriptor with a well-formed `uuid` supplied. -/
def simSupplied : ResourceData :=
  { simData with uuid := some "123e4567-e89b-42d3-a456-426614174000" }

/-- The scenario descriptor with a `uuid` supplied that is not a UUID. -/
def simSuppliedMalformed : ResourceData := { simData with uuid := some "not-a-uuid" }

/-- The canonical text of a UUID, 8-4-4-4-12 hexadecimal digits: the
well-formedness the specification asks of a supplied identity.  The provider
has no such check; this is used only to state that. -/
def specWellFormedUUID (s : String) : Bool :=
  let cs := s.toList
  cs.length == 36 &&
    (List.range 36).all fun i =>
      let c := cs.getD i ' '
      if i = 8 ∨ i = 13 ∨ i = 18 ∨ i = 23 then c == '-'
      else c.isDigit || ('a' ≤ c && c ≤ 'f') || ('A' ≤ c && c ≤ 'F')

/-- Whether a call is `start` or `stop`. -/
def Call.isPower : Call → Bool
  | .start _ => true
  | .stop => true
  | _ => false

/-! ## General lemmas -/

@[simp]
theorem Outcome.after_calls (b : List Call) (o : Outcome σ) :
    (o.after b).calls = b ++ o.calls := rfl

@[simp]
theorem Outcome.after_err (b : List Call) (o : Outcome σ) :
    (o.after b).err = o.err := rfl

@[simp]
theorem Outcome.after_d (b : List Call) (o : Outcome σ) :
    (o.after b).d = o.d := rfl

@[simp]
theorem Outcome.after_world (b : List Call) (o : Outcome σ) :
    (o.after b).world = o.world := rfl

theorem stateRunning_ne_stateStopped : stateRunning ≠ stateStopped := by decide

/-- What `read` does once its handle is built. -/
theorem read_of_built (lib : Library σ δ ι) (d : ResourceData) (m : Config) (w : σ)
    (vm : HyperKit δ ι) (hvm : createHyperKitConfig lib d m w = .ok vm) :
    (resourceHyperKitVMRead lib d m w).err = none ∧
    (resourceHyperKitVMRead lib d m w).calls = [Call.isRunning] ∧
    (resourceHyperKitVMRead lib d m w).d =
      if (lib.IsRunning vm w).1 then d else d.SetState stateStopped := by
  unfold resourceHyperKitVMRead
  rw [hvm]
  cases h : (lib.IsRunning vm w).1 <;> simp [h]

/-- The calls `read` makes: at most the liveness query. -/
theorem read_calls (lib : Library σ δ ι) (d : ResourceData) (m : Config) (w : σ) :
    (resourceHyperKitVMRead lib d m w).calls = [] ∨
    (resourceHyperKitVMRead lib d m w).calls = [Call.isRunning] := by
  cases hvm : createHyperKitConfig lib d m w with
  | error err => left; simp [resourceHyperKitVMRead, hvm]
  | ok vm => right; exact (read_of_built lib d m w vm hvm).2.1

/-- The descriptor `read` leaves: the input, possibly with `state` written. -/
theorem read_d (lib : Library σ δ ι) (d : ResourceData) (m : Config) (w : σ) :
    (resourceHyperKitVMRead lib d m w).d = d ∨
    (resourceHyperKitVMRead lib d m w).d = d.SetState stateStopped := by
  cases hvm : createHyperKitConfig lib d m w with
  | error err => left; simp [resourceHyperKitVMRead, hvm]
  | ok vm =>
    rw [(read_of_built lib d m w vm hvm).2.2]
    cases (lib.IsRunning vm w).1 <;> simp

/-- The world a read leaves once its handle is built: the one the liveness query
returns. -/
theorem read_world_built (lib : Library σ δ ι) (d : ResourceData) (m : Config) (w : σ)
    (vm : HyperKit δ ι) (hvm : createHyperKitConfig lib d m w = .ok vm) :
    (resourceHyperKitVMRead lib d m w).world = (lib.IsRunning vm w).2 := by
  unfold resourceHyperKitVMRead
  rw [hvm]
  cases h : (lib.IsRunning vm w).1 <;> simp [h]

/-- A read whose handle cannot be built fails, calls nothing and leaves the
world and the descriptor as they are. -/
theorem read_failed (lib : Library σ δ ι) (d : ResourceData) (m : Config) (w : σ)
    (e : String) (hvm : createHyperKitConfig lib d m w = .error e) :
    (resourceHyperKitVMRead lib d m w).err ≠ none ∧
    (resourceHyperKitVMRead lib d m w).calls = [] ∧
    (resourceHyperKitVMRead lib d m w).world = w ∧
    (resourceHyperKitVMRead lib d m w).d = d := by
  simp [resourceHyperKitVMRead, hvm]

/-! ## Validation of `state` -/

/-- C1: the validation function of `state` returns no error exactly for
"running" and "stopped"; it never returns a warning; for every other value it
returns exactly one error, whose message contains the value. -/
theorem stateValidateFunc_accepts_exactly_states (v k : String) :
    ((stateValidateFunc v k).2 = [] ↔ (v = "running" ∨ v = "stopped")) ∧
    (stateValidateFunc v k).1 = [] ∧
    (¬ (v = "running" ∨ v = "stopped") →
      ∃ msg, (stateValidateFunc v k).2 = [msg] ∧ ∃ pre post, msg = pre ++ v ++ post) := by
  have hmem : v ∈ states ↔ (v = "running" ∨ v = "stopped") := by
    simp [states, stateRunning, stateStopped]
  refine ⟨?_, ?_, ?_⟩
  · unfold stateValidateFunc
    by_cases h : v ∈ states
    · simp [h, hmem.mp h]
    · have h2 := mt hmem.mpr h
      simp [h, h2]
  · unfold stateValidateFunc
    by_cases h : v ∈ states <;> simp [h]
  · intro hno
    have h : v ∉ states := mt hmem.mp hno
    refine ⟨"unknown state " ++ v ++ ", must be one of " ++ statesQuoted, ?_,
      "unknown state ", ", must be one of " ++ statesQuoted, ?_⟩
    · simp [stateValidateFunc, h]
    · simp [String.append_assoc]

/-- C1 at the empty string and at a misspelt state: one error that quotes the
value, no warning; and the two states pass. -/
theorem stateValidateFunc_accepts_exactly_states_witness :
    stateValidateFunc "" "state" =
      ([], ["unknown state , must be one of map[\"running\":\x7b\x7d \"stopped\":\x7b\x7d]"]) ∧
    stateValidateFunc "Running" "state" =
      ([], ["unknown state Running, must be one of map[\"running\":\x7b\x7d \"stopped\":\x7b\x7d]"]) ∧
    (stateValidateFunc "running" "state").2 = [] ∧
    (stateValidateFunc "stopped" "state").2 = [] :=
  ⟨by decide, by decide,
    (stateValidateFunc_accepts_exactly_states "running" "state").1.mpr (Or.inl rfl),
    (stateValidateFunc_accepts_exactly_states "stopped" "state").1.mpr (Or.inr rfl)⟩

/-! ## Read -/

/-- C9: a read whose handle is built returns no error and invokes the liveness
query and nothing else: the world it leaves is the one that query returns, so
no start, stop or remove has acted on it.  The descriptor it returns is the
input with `state` written to "stopped" when the VM is not running and the input
itself when it is; and a second read that gets the same liveness answer returns
the descriptor of the first. -/
theorem read_observes_only (lib : Library σ δ ι) (d : ResourceData) (m : Config) (w : σ)
    (vm : HyperKit δ ι) (hvm : createHyperKitConfig lib d m w = .ok vm) :
    (resourceHyperKitVMRead lib d m w).err = none ∧
    (resourceHyperKitVMRead lib d m w).calls = [Call.isRunning] ∧
    (resourceHyperKitVMRead lib d m w).world = (lib.IsRunning vm w).2 ∧
    (resourceHyperKitVMRead lib d m w).d =
      { d with stateSet := if (lib.IsRunning vm w).1 then d.stateSet else some stateStopped } ∧
    ((lib.IsRunning vm w).1 = false →
      (resourceHyperKitVMRead lib d m w).d.GetState = stateStopped) ∧
    ((lib.IsRunning vm w).1 = true → (resourceHyperKitVMRead lib d m w).d = d) ∧
    (∀ (w2 : σ) (vm2 : HyperKit δ ι),
      createHyperKitConfig lib (resourceHyperKitVMRead lib d m w).d m w2 = .ok vm2 →
      (lib.IsRunning vm2 w2).1 = (lib.IsRunning vm w).1 →
      (resourceHyperKitVMRead lib (resourceHyperKitVMRead lib d m w).d m w2).d =
        (resourceHyperKitVMRead lib d m w).d) := by
  obtain ⟨herr, hcalls, hd⟩ := read_of_built lib d m w vm hvm
  refine ⟨herr, hcalls, read_world_built lib d m w vm hvm, ?_, ?_, ?_, ?_⟩
  · rw [hd]; cases (lib.IsRunning vm w).1 <;> simp [ResourceData.SetState]
  · intro h; rw [hd, h]; simp [ResourceData.SetState, ResourceData.GetState]
  · intro h; rw [hd, h]; simp
  · intro w2 vm2 hvm2 hsame
    rw [(read_of_built lib _ m w2 vm2 hvm2).2.2, hsame, hd]
    cases (lib.IsRunning vm w).1 <;> simp [ResourceData.SetState]

/-- C9 on the simulated machine: with the VM gone, a read writes "stopped" and
changes nothing else, and reading again gives the same descriptor; with the VM
running as process 4242 a read returns its input and leaves the VM running. -/
theorem read_observes_only_witness :
    (resourceHyperKitVMRead simLib simCreated simConfig simIdle).calls = [Call.isRunning] ∧
    (resourceHyperKitVMRead simLib simCreated simConfig simIdle).world = simIdle ∧
    (resourceHyperKitVMRead simLib simCreated simConfig simIdle).d =
      { simCreated with stateSet := some "stopped" } ∧
    (resourceHyperKitVMRead simLib
        (resourceHyperKitVMRead simLib simCreated simConfig simIdle).d simConfig simIdle).d =
      (resourceHyperKitVMRead simLib simCreated simConfig simIdle).d ∧
    (resourceHyperKitVMRead simLib simCreated simConfig simBusy).d = simCreated ∧
    (resourceHyperKitVMRead simLib simCreated simConfig simBusy).world = simBusy :=
  ⟨(read_observes_only simLib simCreated simConfig simIdle _ rfl).2.1,
    (read_observes_only simLib simCreated simConfig simIdle _ rfl).2.2.1.trans rfl,
    (read_observes_only simLib simCreated simConfig simIdle _ rfl).2.2.2.1,
    (read_observes_only simLib simCreated simConfig simIdle _ rfl).2.2.2.2.2.2 simIdle _ rfl rfl,
    (read_observes_only simLib simCreated simConfig simBusy _ rfl).2.2.2.2.2.1 rfl,
    (read_observes_only simLib simCreated simConfig simBusy _ rfl).2.2.1.trans rfl⟩

/-! ## Delete -/

/-- C8: a destroy whose handle is built invokes stop first, on the handle it
built, and never start.  If stop succeeds, the calls are stop and then one
remove with force set, applied to the handle and the world stop left; the world
destroy leaves is the one that remove returns, and destroy fails exactly when
that remove fails.  If stop fails, destroy fails, stop is the only call and the
world is the one stop left: remove has not acted on it.  The descriptor is
returned as it was. -/
theorem delete_stops_then_removes (lib : Library σ δ ι) (d : ResourceData) (m : Config)
    (w : σ) (vm : HyperKit δ ι) (hvm : createHyperKitConfig lib d m w = .ok vm) :
    (resourceHyperKitVMDelete lib d m w).calls.head? = some Call.stop ∧
    (∀ c, Call.start c ∉ (resourceHyperKitVMDelete lib d m w).calls) ∧
    (resourceHyperKitVMDelete lib d m w).d = d ∧
    ((lib.Stop vm w).err = none →
      (resourceHyperKitVMDelete lib d m w).calls = [Call.stop, Call.remove true] ∧
      (resourceHyperKitVMDelete lib d m w).world =
        (lib.Remove (lib.Stop vm w).vm true (lib.Stop vm w).world).2 ∧
      (resourceHyperKitVMDelete lib d m w).err =
        ((lib.Remove (lib.Stop vm w).vm true (lib.Stop vm w).world).1).map
          (fun err => "failed to remove hyperkit state, " ++ err) ∧
      ((resourceHyperKitVMDelete lib d m w).err ≠ none ↔
        (lib.Remove (lib.Stop vm w).vm true (lib.Stop vm w).world).1 ≠ none)) ∧
    ((lib.Stop vm w).err ≠ none →
      (resourceHyperKitVMDelete lib d m w).err ≠ none ∧
      (resourceHyperKitVMDelete lib d m w).calls = [Call.stop] ∧
      (resourceHyperKitVMDelete lib d m w).world = (lib.Stop vm w).world) := by
  unfold resourceHyperKitVMDelete
  rw [hvm]
  cases hs : (lib.Stop vm w).err with
  | some e => simp [hs]
  | none =>
    cases hr : (lib.Remove (lib.Stop vm w).vm true (lib.Stop vm w).world).1 with
    | some e => simp [hs, hr]
    | none => simp [hs, hr]

/-- C8 on the simulated machine: a running VM is stopped and removed, and is
gone afterwards; a failing remove fails the destroy, after the VM is stopped; a
failing stop fails it before any remove, and the VM still runs. -/
theorem delete_stops_then_removes_witness :
    ((resourceHyperKitVMDelete simLib simCreated simConfig simBusy).calls =
        [Call.stop, Call.remove true] ∧
      (resourceHyperKitVMDelete simLib simCreated simConfig simBusy).world =
        { simBusy with alive := none } ∧
      (resourceHyperKitVMDelete simLib simCreated simConfig simBusy).err = none) ∧
    ((resourceHyperKitVMDelete simLib simCreated simConfig
        { simBusy with failRemove := true }).err ≠ none ∧
      (resourceHyperKitVMDelete simLib simCreated simConfig
        { simBusy with failRemove := true }).world.alive = none) ∧
    ((resourceHyperKitVMDelete simLib simCreated simConfig
        { simBusy with failStop := true }).err ≠ none ∧
      (resourceHyperKitVMDelete simLib simCreated simConfig
        { simBusy with failStop := true }).calls = [Call.stop] ∧
      (resourceHyperKitVMDelete simLib simCreated simConfig
        { simBusy with failStop := true }).world.alive = some 4242) :=
  ⟨⟨((delete_stops_then_removes simLib simCreated simConfig simBusy _ rfl).2.2.2.1 rfl).1,
      ((delete_stops_then_removes simLib simCreated simConfig simBusy _ rfl).2.2.2.1
        rfl).2.1.trans rfl,
      ((delete_stops_then_removes simLib simCreated simConfig simBusy _ rfl).2.2.2.1
        rfl).2.2.1.trans rfl⟩,
    ⟨((delete_stops_then_removes simLib simCreated simConfig
        { simBusy with failRemove := true } _ rfl).2.2.2.1 rfl).2.2.2.mpr (by decide),
      congrArg Sim.alive (((delete_stops_then_removes simLib simCreated simConfig
        { simBusy with failRemove := true } _ rfl).2.2.2.1 rfl).2.1.trans rfl)⟩,
    ⟨((delete_stops_then_removes simLib simCreated simConfig
        { simBusy with failStop := true } _ rfl).2.2.2.2 (by decide)).1,
      ((delete_stops_then_removes simLib simCreated simConfig
        { simBusy with failStop := true } _ rfl).2.2.2.2 (by decide)).2.1,
      congrArg Sim.alive (((delete_stops_then_removes simLib simCreated simConfig
        { simBusy with failStop := true } _ rfl).2.2.2.2 (by decide)).2.2.trans rfl)⟩⟩

/-! ## Update -/

theorem read_calls_no_start (lib : Library σ δ ι) (d : ResourceData) (m : Config) (w : σ)
    (c : String) : Call.start c ∉ (resourceHyperKitVMRead lib d m w).calls := by
  rcases read_calls lib d m w with h | h <;> simp [h]

theorem read_calls_no_stop (lib : Library σ δ ι) (d : ResourceData) (m : Config) (w : σ) :
    Call.stop ∉ (resourceHyperKitVMRead lib d m w).calls := by
  rcases read_calls lib d m w with h | h <;> simp [h]

theorem read_calls_no_power (lib : Library σ δ ι) (d : ResourceData) (m : Config) (w : σ) :
    (resourceHyperKitVMRead lib d m w).calls.filter Call.isPower = [] := by
  rcases read_calls lib d m w with h | h <;> simp [h, Call.isPower]

theorem read_pid (lib : Library σ δ ι) (d : ResourceData) (m : Config) (w : σ) :
    (resourceHyperKitVMRead lib d m w).d.pid = d.pid := by
  rcases read_d lib d m w with h | h <;> simp [h, ResourceData.SetState]

/-- C3, as the code has it: update invokes start only when the declared state
differs from the previous one and the desired state is "running"; the command
line passed is the descriptor's.  The previous state need not be "stopped". -/
theorem update_starts_only_on_change_to_running (lib : Library σ δ ι) (d : ResourceData)
    (m : Config) (w : σ) (c : String)
    (h : Call.start c ∈ (resourceHyperKitVMUpdate lib d m w).calls) :
    d.stateOld ≠ d.stateNew ∧ d.GetState = stateRunning ∧ c = d.command_line := by
  unfold resourceHyperKitVMUpdate at h
  cases hvm : createHyperKitConfig lib d m w with
  | error err => simp [hvm] at h
  | ok vm =>
    rw [hvm] at h
    by_cases hc : d.HasChangeState = true
    · have hne : d.stateOld ≠ d.stateNew := by
        simpa [ResourceData.HasChangeState] using hc
      by_cases hr : d.GetState = stateRunning
      · simp only [hc, hr, if_true] at h
        refine ⟨hne, hr, ?_⟩
        cases hs : (lib.Start vm d.command_line w).err with
        | some e => simpa [hs] using h
        | none =>
          simp only [hs, Outcome.after_calls, List.mem_append, List.mem_singleton] at h
          rcases h with h | h
          · simpa using h
          · exact absurd h (read_calls_no_start lib _ m _ c)
      · simp only [hc, hr, if_true, if_false] at h
        by_cases hst : d.GetState = stateStopped
        · simp only [hst, if_true] at h
          cases ht : (lib.Stop vm w).err with
          | some e => simp [ht] at h
          | none =>
            simp only [ht, Outcome.after_calls, List.mem_append, List.mem_singleton] at h
            rcases h with h | h
            · simp at h
            · exact absurd h (read_calls_no_start lib _ m _ c)
        · simp only [hst, if_false] at h
          exact absurd h (read_calls_no_start lib _ m _ c)
    · simp only [hc] at h
      exact absurd h (read_calls_no_start lib _ m _ c)

/-- C4: in an update whose handle is built and on whose descriptor nothing has
been written yet.  When `state` changes from "stopped" to "running", start, with
the descriptor's command line, is the one start-or-stop call; if it succeeds the
world update leaves is the one start produced from the incoming world, passed
only through the liveness query of the final read, so start has acted once and
stop not at all.  When `state` changes from "running" to "stopped", the same
holds with stop in the place of start.  When `state` is unchanged there is no
start-or-stop call and the world is the incoming one passed through the liveness
query only.  In each case the descriptor returned is the one the final read
leaves. -/
theorem update_transitions (lib : Library σ δ ι) (d : ResourceData) (m : Config) (w : σ)
    (vm : HyperKit δ ι) (hvm : createHyperKitConfig lib d m w = .ok vm)
    (hfresh : d.stateSet = none) :
    (d.stateOld = stateStopped → d.stateNew = stateRunning →
      (resourceHyperKitVMUpdate lib d m w).calls.filter Call.isPower =
        [Call.start d.command_line] ∧
      ((lib.Start vm d.command_line w).err ≠ none →
        (resourceHyperKitVMUpdate lib d m w).err ≠ none ∧
        (resourceHyperKitVMUpdate lib d m w).calls = [Call.start d.command_line] ∧
        (resourceHyperKitVMUpdate lib d m w).world = (lib.Start vm d.command_line w).world) ∧
      ((lib.Start vm d.command_line w).err = none →
        (∀ vm2, createHyperKitConfig lib (d.SetState stateRunning) m
            (lib.Start vm d.command_line w).world = .ok vm2 →
          (resourceHyperKitVMUpdate lib d m w).err = none ∧
          (resourceHyperKitVMUpdate lib d m w).calls =
            [Call.start d.command_line, Call.isRunning] ∧
          (resourceHyperKitVMUpdate lib d m w).world =
            (lib.IsRunning vm2 (lib.Start vm d.command_line w).world).2 ∧
          (resourceHyperKitVMUpdate lib d m w).d =
            if (lib.IsRunning vm2 (lib.Start vm d.command_line w).world).1 then
              d.SetState stateRunning
            else (d.SetState stateRunning).SetState stateStopped) ∧
        (∀ e, createHyperKitConfig lib (d.SetState stateRunning) m
            (lib.Start vm d.command_line w).world = .error e →
          (resourceHyperKitVMUpdate lib d m w).err ≠ none ∧
          (resourceHyperKitVMUpdate lib d m w).calls = [Call.start d.command_line] ∧
          (resourceHyperKitVMUpdate lib d m w).world =
            (lib.Start vm d.command_line w).world))) ∧
    (d.stateOld = stateRunning → d.stateNew = stateStopped →
      (resourceHyperKitVMUpdate lib d m w).calls.filter Call.isPower = [Call.stop] ∧
      ((lib.Stop vm w).err ≠ none →
        (resourceHyperKitVMUpdate lib d m w).err ≠ none ∧
        (resourceHyperKitVMUpdate lib d m w).calls = [Call.stop] ∧
        (resourceHyperKitVMUpdate lib d m w).world = (lib.Stop vm w).world) ∧
      ((lib.Stop vm w).err = none →
        (∀ vm2, createHyperKitConfig lib (d.SetState stateStopped) m
            (lib.Stop vm w).world = .ok vm2 →
          (resourceHyperKitVMUpdate lib d m w).err = none ∧
          (resourceHyperKitVMUpdate lib d m w).calls = [Call.stop, Call.isRunning] ∧
          (resourceHyperKitVMUpdate lib d m w).world =
            (lib.IsRunning vm2 (lib.Stop vm w).world).2 ∧
          (resourceHyperKitVMUpdate lib d m w).d.GetState = stateStopped) ∧
        (∀ e, createHyperKitConfig lib (d.SetState stateStopped) m
            (lib.Stop vm w).world = .error e →
          (resourceHyperKitVMUpdate lib d m w).err ≠ none ∧
          (resourceHyperKitVMUpdate lib d m w).calls = [Call.stop] ∧
          (resourceHyperKitVMUpdate lib d m w).world = (lib.Stop vm w).world))) ∧
    (d.stateOld = d.stateNew →
      (resourceHyperKitVMUpdate lib d m w).calls.filter Call.isPower = [] ∧
      (resourceHyperKitVMUpdate lib d m w).err = none ∧
      (resourceHyperKitVMUpdate lib d m w).calls = [Call.isRunning] ∧
      (resourceHyperKitVMUpdate lib d m w).world = (lib.IsRunning vm w).2 ∧
      (resourceHyperKitVMUpdate lib d m w).d =
        if (lib.IsRunning vm w).1 then d else d.SetState stateStopped) := by
  have hget : d.GetState = d.stateNew := by simp [ResourceData.GetState, hfresh]
  refine ⟨?_, ?_, ?_⟩
  · intro ho hn
    have hc : d.HasChangeState = true := by
      simp [ResourceData.HasChangeState, ho, hn, stateRunning, stateStopped]
    have hr : d.GetState = stateRunning := by rw [hget, hn]
    have hU : resourceHyperKitVMUpdate lib d m w =
        match (lib.Start vm d.command_line w).err with
        | some err =>
          ⟨some ("failed to start hyperkit vm, " ++ err), d,
            (lib.Start vm d.command_line w).world, [Call.start d.command_line]⟩
        | none =>
          (resourceHyperKitVMRead lib (d.SetState stateRunning) m
            (lib.Start vm d.command_line w).world).after [Call.start d.command_line] := by
      unfold resourceHyperKitVMUpdate
      rw [hvm]
      simp only [hc, hr, if_true]
    rw [hU]
    cases hs : (lib.Start vm d.command_line w).err with
    | some e => simp [Call.isPower]
    | none =>
      simp only [Outcome.after_calls, Outcome.after_err, Outcome.after_world, Outcome.after_d]
      refine ⟨by simp [Call.isPower, read_calls_no_power], fun h => absurd rfl h,
        fun _ => ⟨fun vm2 hvm2 => ?_, fun e he => ?_⟩⟩
      · obtain ⟨h1, h2, h3⟩ := read_of_built lib _ m _ vm2 hvm2
        exact ⟨h1, by simp [h2], read_world_built lib _ m _ vm2 hvm2, h3⟩
      · obtain ⟨h1, h2, h3, _⟩ := read_failed lib _ m _ e he
        exact ⟨h1, by simp [h2], h3⟩
  · intro ho hn
    have hc : d.HasChangeState = true := by
      simp [ResourceData.HasChangeState, ho, hn, stateRunning, stateStopped]
    have hr : d.GetState = stateStopped := by rw [hget, hn]
    have hnr : ¬ stateStopped = stateRunning := by decide
    have hU : resourceHyperKitVMUpdate lib d m w =
        match (lib.Stop vm w).err with
        | some err =>
          ⟨some ("failed to start hyperkit vm, " ++ err), d, (lib.Stop vm w).world,
            [Call.stop]⟩
        | none =>
          (resourceHyperKitVMRead lib (d.SetState stateStopped) m
            (lib.Stop vm w).world).after [Call.stop] := by
      unfold resourceHyperKitVMUpdate
      rw [hvm]
      simp only [hc, hr, hnr, if_true, if_false]
    rw [hU]
    cases ht : (lib.Stop vm w).err with
    | some e => simp [Call.isPower]
    | none =>
      simp only [Outcome.after_calls, Outcome.after_err, Outcome.after_world, Outcome.after_d]
      refine ⟨by simp [Call.isPower, read_calls_no_power], fun h => absurd rfl h,
        fun _ => ⟨fun vm2 hvm2 => ?_, fun e he => ?_⟩⟩
      · obtain ⟨h1, h2, h3⟩ := read_of_built lib _ m _ vm2 hvm2
        refine ⟨h1, by simp [h2], read_world_built lib _ m _ vm2 hvm2, ?_⟩
        rw [h3]
        cases (lib.IsRunning vm2 (lib.Stop vm w).world).1 <;>
          simp [ResourceData.GetState, ResourceData.SetState]
      · obtain ⟨h1, h2, h3, _⟩ := read_failed lib _ m _ e he
        exact ⟨h1, by simp [h2], h3⟩
  · intro hsame
    have hc : d.HasChangeState = false := by
      simp [ResourceData.HasChangeState, hsame]
    have hU : resourceHyperKitVMUpdate lib d m w = resourceHyperKitVMRead lib d m w := by
      unfold resourceHyperKitVMUpdate
      rw [hvm]
      simp [hc]
    obtain ⟨h1, h2, h3⟩ := read_of_built lib d m w vm hvm
    rw [hU]
    exact ⟨read_calls_no_power lib d m w, h1, h2, read_world_built lib d m w vm hvm, h3⟩

/-- The `pid` field after any update is the one it had before. -/
theorem update_pid (lib : Library σ δ ι) (d : ResourceData) (m : Config) (w : σ) :
    (resourceHyperKitVMUpdate lib d m w).d.pid = d.pid := by
  unfold resourceHyperKitVMUpdate
  cases hvm : createHyperKitConfig lib d m w with
  | error err => rfl
  | ok vm =>
    simp only []
    split
    · split
      · split
        · rfl
        · simp [read_pid, ResourceData.SetState]
      · split
        · split
          · rfl
          · simp [read_pid, ResourceData.SetState]
        · exact read_pid lib d m w
    · exact read_pid lib d m w

/-! ## Create -/

/-- The identity step touches the identity and `uuid` only. -/
theorem identity_frame (lib : Library σ δ ι) (d : ResourceData) (w : σ) :
    (resourceHyperKitVMCreate_identity lib d w).2.1.command_line = d.command_line ∧
    (resourceHyperKitVMCreate_identity lib d w).2.1.stateNew = d.stateNew ∧
    (resourceHyperKitVMCreate_identity lib d w).2.1.stateSet = d.stateSet := by
  unfold resourceHyperKitVMCreate_identity
  split
  · simp [ResourceData.SetId]
  · split <;> simp [ResourceData.SetId, ResourceData.SetUUID]

/-- The identity the first step assigns: the supplied `uuid`, or the generated
one, which is then also the `uuid`. -/
theorem identity_assigned (lib : Library σ δ ι) (d : ResourceData) (w : σ)
    (d1 : ResourceData) (w1 : σ)
    (hid : resourceHyperKitVMCreate_identity lib d w = (none, d1, w1)) :
    (d.uuid = some d1.id ∧ d1 = d.SetId d1.id ∧ w1 = w) ∨
    (d.uuid = none ∧ lib.NewRandom w = (.ok d1.id, w1) ∧
      d1 = (d.SetUUID d1.id).SetId d1.id) := by
  unfold resourceHyperKitVMCreate_identity at hid
  split at hid
  · next rawID hu =>
    simp only [Prod.mk.injEq, true_and] at hid
    obtain ⟨h1, h2⟩ := hid
    subst h1
    left
    exact ⟨by simpa [ResourceData.SetId] using hu, by simp [ResourceData.SetId], h2.symm⟩
  · next hu =>
    split at hid
    · simp at hid
    · next rawUUID w2 hr =>
      simp only [Prod.mk.injEq, true_and] at hid
      obtain ⟨h1, h2⟩ := hid
      subst h1
      subst h2
      right
      exact ⟨hu, by simpa [ResourceData.SetId, ResourceData.SetUUID] using hr,
        by simp [ResourceData.SetId, ResourceData.SetUUID]⟩

/-- Create, once the identity is assigned, the handle is built and start has
succeeded, for a descriptor not declared "stopped": the pid is recorded and the
rest is a read. -/
theorem create_of_started (lib : Library σ δ ι) (d : ResourceData) (m : Config) (w : σ)
    (d1 : ResourceData) (w1 : σ) (vm : HyperKit δ ι)
    (hid : resourceHyperKitVMCreate_identity lib d w = (none, d1, w1))
    (hvm : createHyperKitConfig lib d1 m w1 = .ok vm)
    (hstart : (lib.Start vm d1.command_line w1).err = none)
    (hstate : d1.GetState ≠ stateStopped) :
    resourceHyperKitVMCreate lib d m w =
      (resourceHyperKitVMRead lib (d1.SetPid (lib.Start vm d1.command_line w1).vm.Pid) m
        (lib.Start vm d1.command_line w1).world).after [Call.start d1.command_line] := by
  have hstate2 : ¬ (d1.SetPid (lib.Start vm d1.command_line w1).vm.Pid).GetState =
      stateStopped := hstate
  unfold resourceHyperKitVMCreate
  rw [hid]
  simp only []
  rw [hvm]
  simp only [hstart, hstate2, if_false]

/-- Create, once the identity is assigned, the handle is built and start has
succeeded, for a descriptor declared "stopped": the pid is recorded, stop is
invoked, and if it succeeds the rest is a read. -/
theorem create_of_started_stopped (lib : Library σ δ ι) (d : ResourceData) (m : Config)
    (w : σ) (d1 : ResourceData) (w1 : σ) (vm : HyperKit δ ι)
    (hid : resourceHyperKitVMCreate_identity lib d w = (none, d1, w1))
    (hvm : createHyperKitConfig lib d1 m w1 = .ok vm)
    (hstart : (lib.Start vm d1.command_line w1).err = none)
    (hstate : d1.GetState = stateStopped) :
    resourceHyperKitVMCreate lib d m w =
      match (lib.Stop (lib.Start vm d1.command_line w1).vm
          (lib.Start vm d1.command_line w1).world).err with
      | some err =>
        ⟨some ("failed to stop hyperkit vm, " ++ err),
          d1.SetPid (lib.Start vm d1.command_line w1).vm.Pid,
          (lib.Stop (lib.Start vm d1.command_line w1).vm
            (lib.Start vm d1.command_line w1).world).world,
          [Call.start d1.command_line, Call.stop]⟩
      | none =>
        (resourceHyperKitVMRead lib (d1.SetPid (lib.Start vm d1.command_line w1).vm.Pid) m
          (lib.Stop (lib.Start vm d1.command_line w1).vm
            (lib.Start vm d1.command_line w1).world).world).after
          [Call.start d1.command_line, Call.stop] := by
  have hstate2 : (d1.SetPid (lib.Start vm d1.command_line w1).vm.Pid).GetState =
      stateStopped := hstate
  unfold resourceHyperKitVMCreate
  rw [hid]
  simp only []
  rw [hvm]
  simp only [hstart, hstate2, if_true]

/-- Create clears the identity and fails when the UUID generator, the handle
construction or start fails. -/
theorem create_clears_identity_before_launch (lib : Library σ δ ι) (d : ResourceData)
    (m : Config) (w : σ) :
    (∀ e w1, d.uuid = none → lib.NewRandom w = (.error e, w1) →
      (resourceHyperKitVMCreate lib d m w).err ≠ none ∧
      (resourceHyperKitVMCreate lib d m w).d.id = "") ∧
    (∀ d1 w1 e, resourceHyperKitVMCreate_identity lib d w = (none, d1, w1) →
      createHyperKitConfig lib d1 m w1 = .error e →
      (resourceHyperKitVMCreate lib d m w).err ≠ none ∧
      (resourceHyperKitVMCreate lib d m w).d.id = "") ∧
    (∀ d1 w1 vm, resourceHyperKitVMCreate_identity lib d w = (none, d1, w1) →
      createHyperKitConfig lib d1 m w1 = .ok vm →
      (lib.Start vm d1.command_line w1).err ≠ none →
      (resourceHyperKitVMCreate lib d m w).err ≠ none ∧
      (resourceHyperKitVMCreate lib d m w).d.id = "") := by
  refine ⟨?_, ?_, ?_⟩
  · intro e w1 hu hr
    simp [resourceHyperKitVMCreate, resourceHyperKitVMCreate_identity, hu, hr,
      ResourceData.SetId]
  · intro d1 w1 e hid hvm
    unfold resourceHyperKitVMCreate
    rw [hid]
    simp only []
    rw [hvm]
    simp [ResourceData.SetId]
  · intro d1 w1 vm hid hvm hs
    unfold resourceHyperKitVMCreate
    rw [hid]
    simp only []
    rw [hvm]
    cases hse : (lib.Start vm d1.command_line w1).err with
    | none => exact absurd hse hs
    | some e => simp [hse, ResourceData.SetId]

/-- The descriptor a successful create returns: the one with the identity
assigned, a pid recorded and possibly `state` written to "stopped". -/
theorem create_success_d (lib : Library σ δ ι) (d : ResourceData) (m : Config) (w : σ)
    (d1 : ResourceData) (w1 : σ)
    (hid : resourceHyperKitVMCreate_identity lib d w = (none, d1, w1))
    (hok : (resourceHyperKitVMCreate lib d m w).err = none) :
    ∃ p, (resourceHyperKitVMCreate lib d m w).d = d1.SetPid p ∨
      (resourceHyperKitVMCreate lib d m w).d = (d1.SetPid p).SetState stateStopped := by
  cases hvm : createHyperKitConfig lib d1 m w1 with
  | error e =>
    have := (create_clears_identity_before_launch lib d m w).2.1 d1 w1 e hid hvm
    exact absurd hok this.1
  | ok vm =>
    cases hs : (lib.Start vm d1.command_line w1).err with
    | some e =>
      have := (create_clears_identity_before_launch lib d m w).2.2 d1 w1 vm hid hvm
        (by simp [hs])
      exact absurd hok this.1
    | none =>
      refine ⟨(lib.Start vm d1.command_line w1).vm.Pid, ?_⟩
      by_cases hst : d1.GetState = stateStopped
      · rw [create_of_started_stopped lib d m w d1 w1 vm hid hvm hs hst] at hok ⊢
        cases ht : (lib.Stop (lib.Start vm d1.command_line w1).vm
            (lib.Start vm d1.command_line w1).world).err with
        | some e => simp [ht] at hok
        | none =>
          simp only [ht, Outcome.after_d]
          exact read_d lib _ m _
      · rw [create_of_started lib d m w d1 w1 vm hid hvm hs hst]
        simp only [Outcome.after_d]
        exact read_d lib _ m _

/-- C5, as the code has it: in a create with `state` unset in which the
identity is assigned, both handle constructions and start succeed and the VM is
observed running, create succeeds; start has acted once on the incoming world
and only the liveness query after it; the descriptor returned has the identity
assigned, which is not empty (a supplied `uuid` is not empty, a configured empty
string being reported as unset, and the text of a generated UUID is not empty),
the pid of the started handle, and `state` still unset: it reads as the empty
string, not as "running". -/
theorem create_unset_leaves_state_unset (lib : Library σ δ ι) (d : ResourceData)
    (m : Config) (w : σ) (d1 : ResourceData) (w1 : σ) (vm vm2 : HyperKit δ ι)
    (s : Effect σ δ ι)
    (hnew : d.stateNew = "") (hset : d.stateSet = none)
    (hsup : ∀ u, d.uuid = some u → u ≠ "")
    (hgen : ∀ g w2, lib.NewRandom w = (.ok g, w2) → g ≠ "")
    (hid : resourceHyperKitVMCreate_identity lib d w = (none, d1, w1))
    (hvm : createHyperKitConfig lib d1 m w1 = .ok vm)
    (hs : lib.Start vm d.command_line w1 = s) (hstart : s.err = none)
    (hvm2 : createHyperKitConfig lib (d1.SetPid s.vm.Pid) m s.world = .ok vm2)
    (hrun : (lib.IsRunning vm2 s.world).1 = true) :
    (resourceHyperKitVMCreate lib d m w).err = none ∧
    (resourceHyperKitVMCreate lib d m w).calls = [Call.start d.command_line, Call.isRunning] ∧
    (resourceHyperKitVMCreate lib d m w).world = (lib.IsRunning vm2 s.world).2 ∧
    (resourceHyperKitVMCreate lib d m w).d = d1.SetPid s.vm.Pid ∧
    (resourceHyperKitVMCreate lib d m w).d.stateSet = none ∧
    (resourceHyperKitVMCreate lib d m w).d.GetState = "" ∧
    (resourceHyperKitVMCreate lib d m w).d.GetState ≠ stateRunning ∧
    (resourceHyperKitVMCreate lib d m w).d.pid = s.vm.Pid ∧
    (resourceHyperKitVMCreate lib d m w).d.id ≠ "" ∧
    (resourceHyperKitVMCreate lib d m w).d.id = d1.id ∧
    (d.uuid = some d1.id ∨ (d.uuid = none ∧ (lib.NewRandom w).1 = .ok d1.id)) := by
  obtain ⟨hcl, hn1, hs1⟩ := identity_frame lib d w
  rw [hid] at hcl hn1 hs1
  simp only at hcl hn1 hs1
  rw [← hcl] at hs
  subst hs
  have hget : d1.GetState = "" := by simp [ResourceData.GetState, hn1, hs1, hnew, hset]
  have hst : d1.GetState ≠ stateStopped := by rw [hget]; decide
  have hne : d1.id ≠ "" := by
    rcases identity_assigned lib d w d1 w1 hid with h | h
    · exact hsup _ h.1
    · exact hgen _ _ h.2.1
  obtain ⟨herr, hcalls, hd⟩ := read_of_built lib _ m _ vm2 hvm2
  have hworld := read_world_built lib _ m _ vm2 hvm2
  rw [hrun] at hd
  simp only [if_true] at hd
  rw [create_of_started lib d m w d1 w1 vm hid hvm hstart hst, ← hcl]
  simp only [Outcome.after_err, Outcome.after_calls, Outcome.after_d, Outcome.after_world,
    herr, hcalls, hd, hworld]
  refine ⟨trivial, by simp, trivial, trivial, ?_, ?_, ?_, rfl, hne, rfl, ?_⟩
  · simpa [ResourceData.SetPid, hset] using hs1
  · exact hget
  · show d1.GetState ≠ stateRunning
    rw [hget]; decide
  · rcases identity_assigned lib d w d1 w1 hid with h | h
    · exact Or.inl h.1
    · exact Or.inr ⟨h.1, by rw [h.2.1]⟩

/-- C6: in a create of a descriptor declared "stopped" in which the identity is
assigned and the handle constructions, start and stop succeed, the calls are one
start with the command line, then one stop, then the liveness query of the final
read, and the world create leaves is the incoming one after exactly that: start
on the handle built, stop on the handle and world start left, the liveness query
on the world stop left.  The pid returned is the one start left in the handle and
`state` reads "stopped".  In a create of a descriptor with any other `state`,
stop is not invoked: on every path the world create leaves is the one produced
by the identity step, by start, or by start and the liveness query, with no stop
in between. -/
theorem create_stopped_starts_then_stops (lib : Library σ δ ι) (d : ResourceData)
    (m : Config) (w : σ) :
    (∀ (d1 : ResourceData) (w1 : σ) (vm vm2 : HyperKit δ ι) (s t : Effect σ δ ι),
      d.GetState = stateStopped →
      resourceHyperKitVMCreate_identity lib d w = (none, d1, w1) →
      createHyperKitConfig lib d1 m w1 = .ok vm →
      lib.Start vm d.command_line w1 = s → s.err = none →
      lib.Stop s.vm s.world = t → t.err = none →
      createHyperKitConfig lib (d1.SetPid s.vm.Pid) m t.world = .ok vm2 →
      (resourceHyperKitVMCreate lib d m w).err = none ∧
      (resourceHyperKitVMCreate lib d m w).calls =
        [Call.start d.command_line, Call.stop, Call.isRunning] ∧
      (resourceHyperKitVMCreate lib d m w).world = (lib.IsRunning vm2 t.world).2 ∧
      (resourceHyperKitVMCreate lib d m w).d =
        (if (lib.IsRunning vm2 t.world).1 then d1.SetPid s.vm.Pid
          else (d1.SetPid s.vm.Pid).SetState stateStopped) ∧
      (resourceHyperKitVMCreate lib d m w).d.pid = s.vm.Pid ∧
      (resourceHyperKitVMCreate lib d m w).d.GetState = stateStopped) ∧
    (d.GetState ≠ stateStopped →
      Call.stop ∉ (resourceHyperKitVMCreate lib d m w).calls ∧
      (∀ e d1 w1, resourceHyperKitVMCreate_identity lib d w = (some e, d1, w1) →
        (resourceHyperKitVMCreate lib d m w).calls = [] ∧
        (resourceHyperKitVMCreate lib d m w).world = w1) ∧
      (∀ d1 w1, resourceHyperKitVMCreate_identity lib d w = (none, d1, w1) →
        (∀ e, createHyperKitConfig lib d1 m w1 = .error e →
          (resourceHyperKitVMCreate lib d m w).calls = [] ∧
          (resourceHyperKitVMCreate lib d m w).world = w1) ∧
        (∀ vm, createHyperKitConfig lib d1 m w1 = .ok vm →
          ((lib.Start vm d.command_line w1).err ≠ none →
            (resourceHyperKitVMCreate lib d m w).calls = [Call.start d.command_line] ∧
            (resourceHyperKitVMCreate lib d m w).world =
              (lib.Start vm d.command_line w1).world) ∧
          ((lib.Start vm d.command_line w1).err = none →
            (∀ vm2, createHyperKitConfig lib
                (d1.SetPid (lib.Start vm d.command_line w1).vm.Pid) m
                (lib.Start vm d.command_line w1).world = .ok vm2 →
              (resourceHyperKitVMCreate lib d m w).calls =
                [Call.start d.command_line, Call.isRunning] ∧
              (resourceHyperKitVMCreate lib d m w).world =
                (lib.IsRunning vm2 (lib.Start vm d.command_line w1).world).2) ∧
            (∀ e, createHyperKitConfig lib
                (d1.SetPid (lib.Start vm d.command_line w1).vm.Pid) m
                (lib.Start vm d.command_line w1).world = .error e →
              (resourceHyperKitVMCreate lib d m w).calls = [Call.start d.command_line] ∧
              (resourceHyperKitVMCreate lib d m w).world =
                (lib.Start vm d.command_line w1).world))))) := by
  obtain ⟨hcl, hn1, hs1⟩ := identity_frame lib d w
  constructor
  · intro d1 w1 vm vm2 s t hstate hid hvm hs hstart ht hstop hvm2
    rw [hid] at hcl hn1 hs1
    simp only at hcl hn1 hs1
    rw [← hcl] at hs
    subst hs
    subst ht
    have hst : d1.GetState = stateStopped := by
      rw [← hstate]; simp [ResourceData.GetState, hn1, hs1]
    obtain ⟨herr, hcalls, hd⟩ := read_of_built lib _ m _ vm2 hvm2
    have hworld := read_world_built lib _ m _ vm2 hvm2
    rw [create_of_started_stopped lib d m w d1 w1 vm hid hvm hstart hst, ← hcl]
    simp only [hstop, Outcome.after_err, Outcome.after_calls, Outcome.after_d,
      Outcome.after_world, herr, hcalls, hworld]
    refine ⟨trivial, by simp, trivial, hd, ?_, ?_⟩
    · rw [read_pid]; rfl
    · rcases read_d lib (d1.SetPid (lib.Start vm d1.command_line w1).vm.Pid) m
        (lib.Stop (lib.Start vm d1.command_line w1).vm
          (lib.Start vm d1.command_line w1).world).world with h | h
      · rw [h]; exact hst
      · rw [h]; simp [ResourceData.GetState, ResourceData.SetState]
  · intro hstate
    refine ⟨?_, ?_, ?_⟩
    · rcases hid : resourceHyperKitVMCreate_identity lib d w with ⟨e, d1, w1⟩
      rw [hid] at hcl hn1 hs1
      simp only at hcl hn1 hs1
      cases e with
      | some e => simp [resourceHyperKitVMCreate, hid]
      | none =>
        have hst : d1.GetState ≠ stateStopped := by
          intro h; apply hstate; rw [← h]; simp [ResourceData.GetState, hn1, hs1]
        cases hvm : createHyperKitConfig lib d1 m w1 with
        | error e => simp [resourceHyperKitVMCreate, hid, hvm]
        | ok vm =>
          cases hs : (lib.Start vm d1.command_line w1).err with
          | some e => simp [resourceHyperKitVMCreate, hid, hvm, hs]
          | none =>
            rw [create_of_started lib d m w d1 w1 vm hid hvm hs hst]
            simp [read_calls_no_stop]
    · intro e d1 w1 hid
      simp [resourceHyperKitVMCreate, hid]
    · intro d1 w1 hid
      rw [hid] at hcl hn1 hs1
      simp only at hcl hn1 hs1
      have hst : d1.GetState ≠ stateStopped := by
        intro h; apply hstate; rw [← h]; simp [ResourceData.GetState, hn1, hs1]
      rw [← hcl]
      refine ⟨fun e hvm => ?_, fun vm hvm => ⟨fun hs => ?_, fun hs => ?_⟩⟩
      · simp [resourceHyperKitVMCreate, hid, hvm]
      · cases hse : (lib.Start vm d1.command_line w1).err with
        | none => exact absurd hse hs
        | some e => simp [resourceHyperKitVMCreate, hid, hvm, hse]
      · rw [create_of_started lib d m w d1 w1 vm hid hvm hs hst]
        simp only [Outcome.after_calls, Outcome.after_world]
        refine ⟨fun vm2 hvm2 => ?_, fun e he => ?_⟩
        · obtain ⟨_, h2, _⟩ := read_of_built lib _ m _ vm2 hvm2
          exact ⟨by simp [h2], read_world_built lib _ m _ vm2 hvm2⟩
        · obtain ⟨_, h2, h3, _⟩ := read_failed lib _ m _ e he
          exact ⟨by simp [h2], h3⟩

/-- C7, as the code has it: a supplied `uuid`, whatever its form, becomes the
identity unchanged and the generator is not consulted; with no `uuid` supplied,
the generated one becomes both the identity and the `uuid`.  A create that
succeeds returns that identity and that `uuid`. -/
theorem create_identity_supplied_or_generated (lib : Library σ δ ι) (d : ResourceData)
    (m : Config) (w : σ) :
    (∀ u, d.uuid = some u →
      resourceHyperKitVMCreate_identity lib d w = (none, d.SetId u, w) ∧
      ((resourceHyperKitVMCreate lib d m w).err = none →
        (resourceHyperKitVMCreate lib d m w).d.id = u ∧
        (resourceHyperKitVMCreate lib d m w).d.uuid = some u)) ∧
    (∀ g w1, d.uuid = none → lib.NewRandom w = (.ok g, w1) →
      resourceHyperKitVMCreate_identity lib d w = (none, (d.SetUUID g).SetId g, w1) ∧
      ((resourceHyperKitVMCreate lib d m w).err = none →
        (resourceHyperKitVMCreate lib d m w).d.id = g ∧
        (resourceHyperKitVMCreate lib d m w).d.uuid = some g)) := by
  constructor
  · intro u hu
    have hid : resourceHyperKitVMCreate_identity lib d w = (none, d.SetId u, w) := by
      simp [resourceHyperKitVMCreate_identity, hu]
    refine ⟨hid, fun hok => ?_⟩
    obtain ⟨p, h | h⟩ := create_success_d lib d m w _ _ hid hok <;>
      simp [h, ResourceData.SetId, ResourceData.SetPid, ResourceData.SetState, hu]
  · intro g w1 hu hr
    have hid : resourceHyperKitVMCreate_identity lib d w =
        (none, (d.SetUUID g).SetId g, w1) := by
      simp [resourceHyperKitVMCreate_identity, hu, hr]
    refine ⟨hid, fun hok => ?_⟩
    obtain ⟨p, h | h⟩ := create_success_d lib d m w _ _ hid hok <;>
      simp [h, ResourceData.SetId, ResourceData.SetPid, ResourceData.SetState,
        ResourceData.SetUUID]

/-! ## Concrete runs -/

/-- C3 on the simulated machine: the update from "stopped" to "running" invokes
start, and the state did change to "running". -/
theorem update_starts_only_on_change_to_running_witness :
    Call.start "console=ttyS0" ∈
      (resourceHyperKitVMUpdate simLib simStoppedToRunning simConfig simIdle).calls ∧
    (simStoppedToRunning.stateOld ≠ simStoppedToRunning.stateNew ∧
      simStoppedToRunning.GetState = stateRunning ∧
      "console=ttyS0" = simStoppedToRunning.command_line) :=
  ⟨by decide,
    update_starts_only_on_change_to_running simLib simStoppedToRunning simConfig simIdle
      "console=ttyS0" (by decide)⟩

/-- C3 fails as stated: on a VM created with `state` unset and still running as
process 4242, an update that declares `state` as "running" invokes start,
although the previous declared state is not "stopped". -/
theorem update_starts_from_unset :
    simUnsetToRunning.stateOld = "" ∧
    simUnsetToRunning.stateOld ≠ stateStopped ∧
    simUnsetToRunning.GetState = stateRunning ∧
    (∃ vm, createHyperKitConfig simLib simUnsetToRunning simConfig simBusy = .ok vm ∧
      (simLib.IsRunning vm simBusy).1 = true) ∧
    (resourceHyperKitVMUpdate simLib simUnsetToRunning simConfig simBusy).calls =
      [Call.start "console=ttyS0", Call.isRunning] :=
  ⟨rfl, by decide, by decide, ⟨_, rfl, rfl⟩, rfl⟩

/-- C4 on the simulated machine: "stopped" to "running" makes one start, after
which process 4242 runs; "running" to "stopped" makes one stop, after which
nothing runs; an unchanged state makes neither and the VM keeps running. -/
theorem update_transitions_witness :
    ((resourceHyperKitVMUpdate simLib simStoppedToRunning simConfig simIdle).calls.filter
        Call.isPower = [Call.start "console=ttyS0"] ∧
      (resourceHyperKitVMUpdate simLib simStoppedToRunning simConfig simIdle).calls =
        [Call.start "console=ttyS0", Call.isRunning] ∧
      (resourceHyperKitVMUpdate simLib simStoppedToRunning simConfig simIdle).world.alive =
        some 4242) ∧
    ((resourceHyperKitVMUpdate simLib simRunningToStopped simConfig simBusy).calls.filter
        Call.isPower = [Call.stop] ∧
      (resourceHyperKitVMUpdate simLib simRunningToStopped simConfig simBusy).calls =
        [Call.stop, Call.isRunning] ∧
      (resourceHyperKitVMUpdate simLib simRunningToStopped simConfig simBusy).world.alive =
        none) ∧
    ((resourceHyperKitVMUpdate simLib simCreated simConfig simBusy).calls.filter
        Call.isPower = [] ∧
      (resourceHyperKitVMUpdate simLib simCreated simConfig simBusy).world = simBusy) :=
  ⟨⟨((update_transitions simLib simStoppedToRunning simConfig simIdle _ rfl rfl).1
        rfl rfl).1,
      ((((update_transitions simLib simStoppedToRunning simConfig simIdle _ rfl rfl).1
        rfl rfl).2.2 rfl).1 _ rfl).2.1,
      congrArg Sim.alive
        (((((update_transitions simLib simStoppedToRunning simConfig simIdle _ rfl rfl).1
          rfl rfl).2.2 rfl).1 _ rfl).2.2.1.trans rfl)⟩,
    ⟨((update_transitions simLib simRunningToStopped simConfig simBusy _ rfl rfl).2.1
        rfl rfl).1,
      ((((update_transitions simLib simRunningToStopped simConfig simBusy _ rfl rfl).2.1
        rfl rfl).2.2 rfl).1 _ rfl).2.1,
      congrArg Sim.alive
        (((((update_transitions simLib simRunningToStopped simConfig simBusy _ rfl rfl).2.1
          rfl rfl).2.2 rfl).1 _ rfl).2.2.1.trans rfl)⟩,
    ⟨((update_transitions simLib simCreated simConfig simBusy _ rfl rfl).2.2 rfl).1,
      ((update_transitions simLib simCreated simConfig simBusy _ rfl rfl).2.2
        rfl).2.2.2.1.trans rfl⟩⟩

/-- C10 fails on the code: an update from "stopped" to "running" succeeds and
launches process 5000, yet the descriptor it returns still carries the pid 4242
of the earlier launch. -/
theorem update_start_leaves_pid_stale :
    (resourceHyperKitVMUpdate simLib simStoppedToRunning simConfig
      { simIdle with nextPid := 5000 }).err = none ∧
    (resourceHyperKitVMUpdate simLib simStoppedToRunning simConfig
      { simIdle with nextPid := 5000 }).calls = [Call.start "console=ttyS0", Call.isRunning] ∧
    (resourceHyperKitVMUpdate simLib simStoppedToRunning simConfig
      { simIdle with nextPid := 5000 }).world.alive = some 5000 ∧
    (resourceHyperKitVMUpdate simLib simStoppedToRunning simConfig
      { simIdle with nextPid := 5000 }).d.pid = 4242 :=
  ⟨rfl, rfl, rfl, rfl⟩

/-- C2 fails on the code: in a create of a descriptor declared "stopped" whose
stop fails, create returns the error but leaves the identity assigned. -/
theorem create_stop_failure_keeps_identity :
    (resourceHyperKitVMCreate simLib simDeclaredStopped simConfig
      { simIdle with failStop := true }).err =
        some "failed to stop hyperkit vm, shutdown failed" ∧
    (resourceHyperKitVMCreate simLib simDeclaredStopped simConfig
      { simIdle with failStop := true }).calls = [Call.start "console=ttyS0", Call.stop] ∧
    (resourceHyperKitVMCreate simLib simDeclaredStopped simConfig
      { simIdle with failStop := true }).d.id = "6ba7b810-9dad-41d1-80b4-00c04fd430c8" ∧
    (resourceHyperKitVMCreate simLib simDeclaredStopped simConfig
      { simIdle with failStop := true }).d.id ≠ "" :=
  ⟨rfl, rfl, rfl, by decide⟩

/-- C5 fails as stated: the default create of the scenario succeeds, starts the
VM as process 4242 and observes it running, and returns the descriptor with the
generated identity and pid 4242 whose `state` reads as the empty string. -/
theorem create_default_state_reads_unset :
    (resourceHyperKitVMCreate simLib simData simConfig simIdle).err = none ∧
    (resourceHyperKitVMCreate simLib simData simConfig simIdle).calls =
      [Call.start "console=ttyS0", Call.isRunning] ∧
    (resourceHyperKitVMCreate simLib simData simConfig simIdle).world.alive = some 4242 ∧
    (resourceHyperKitVMCreate simLib simData simConfig simIdle).d = simCreated ∧
    (resourceHyperKitVMCreate simLib simData simConfig simIdle).d.GetState = "" ∧
    (resourceHyperKitVMCreate simLib simData simConfig simIdle).d.GetState ≠ stateRunning :=
  ⟨rfl, rfl, rfl, by decide, rfl, by decide⟩

/-- C5 on the simulated machine: the amended statement applied to the default
create of the scenario; process 4242 runs afterwards. -/
theorem create_unset_leaves_state_unset_witness :
    (resourceHyperKitVMCreate simLib simData simConfig simIdle).err = none ∧
    (resourceHyperKitVMCreate simLib simData simConfig simIdle).world.alive = some 4242 ∧
    (resourceHyperKitVMCreate simLib simData simConfig simIdle).d.GetState = "" ∧
    (resourceHyperKitVMCreate simLib simData simConfig simIdle).d.pid = 4242 ∧
    (resourceHyperKitVMCreate simLib simData simConfig simIdle).d.id ≠ "" ∧
    (resourceHyperKitVMCreate simLib simData simConfig simIdle).d.id =
      "6ba7b810-9dad-41d1-80b4-00c04fd430c8" :=
  have h := create_unset_leaves_state_unset simLib simData simConfig simIdle _ _ _ _ _
    rfl rfl (fun _ hu => nomatch hu)
    (fun g w2 hg =>
      (Except.ok.inj (congrArg Prod.fst hg :
        (Except.ok "6ba7b810-9dad-41d1-80b4-00c04fd430c8" : Except String String) =
          Except.ok g)) ▸ (by decide))
    rfl rfl rfl rfl rfl rfl
  ⟨h.1, congrArg Sim.alive (h.2.2.1.trans rfl), h.2.2.2.2.2.1, h.2.2.2.2.2.2.2.1,
    h.2.2.2.2.2.2.2.2.1, h.2.2.2.2.2.2.2.2.2.1⟩

/-- C6 on the simulated machine: the scenario declared "stopped" is started as
process 4242 and then stopped, and no process runs afterwards; the default
scenario is never stopped, and process 4242 runs afterwards. -/
theorem create_stopped_starts_then_stops_witness :
    ((resourceHyperKitVMCreate simLib simDeclaredStopped simConfig simIdle).err = none ∧
      (resourceHyperKitVMCreate simLib simDeclaredStopped simConfig simIdle).calls =
        [Call.start "console=ttyS0", Call.stop, Call.isRunning] ∧
      (resourceHyperKitVMCreate simLib simDeclaredStopped simConfig simIdle).world =
        { simIdle with alive := none, nextPid := 4243 } ∧
      (resourceHyperKitVMCreate simLib simDeclaredStopped simConfig simIdle).d.pid = 4242 ∧
      (resourceHyperKitVMCreate simLib simDeclaredStopped simConfig simIdle).d.GetState =
        stateStopped) ∧
    (Call.stop ∉ (resourceHyperKitVMCreate simLib simData simConfig simIdle).calls ∧
      (resourceHyperKitVMCreate simLib simData simConfig simIdle).world =
        { simIdle with alive := some 4242, nextPid := 4243 }) :=
  have h1 := (create_stopped_starts_then_stops simLib simDeclaredStopped simConfig simIdle).1
    _ _ _ _ _ _ rfl rfl rfl rfl rfl rfl rfl rfl
  have h2 := (create_stopped_starts_then_stops simLib simData simConfig simIdle).2
    (by decide)
  ⟨⟨h1.1, h1.2.1, h1.2.2.1.trans rfl, h1.2.2.2.2.1, h1.2.2.2.2.2⟩,
    ⟨h2.1, ((((h2.2.2 _ _ rfl).2 _ rfl).2 rfl).1 _ rfl).2.trans rfl⟩⟩

/-- C7 fails as stated: a supplied `uuid` that is not a well-formed UUID becomes
the identity all the same, although the generator had a well-formed one to
give. -/
theorem create_keeps_malformed_uuid :
    specWellFormedUUID "not-a-uuid" = false ∧
    (resourceHyperKitVMCreate simLib simSuppliedMalformed simConfig simIdle).err = none ∧
    (resourceHyperKitVMCreate simLib simSuppliedMalformed simConfig simIdle).d.id =
      "not-a-uuid" ∧
    (simLib.NewRandom simIdle).1 = .ok "6ba7b810-9dad-41d1-80b4-00c04fd430c8" ∧
    specWellFormedUUID "6ba7b810-9dad-41d1-80b4-00c04fd430c8" = true :=
  ⟨by decide, rfl, rfl, rfl, by decide⟩

/-- C7 on the simulated machine: a supplied well-formed `uuid` is the identity of
the created descriptor; without one the generated UUID is the identity and the
`uuid`. -/
theorem create_identity_supplied_or_generated_witness :
    ((resourceHyperKitVMCreate simLib simSupplied simConfig simIdle).d.id =
        "123e4567-e89b-42d3-a456-426614174000" ∧
      (resourceHyperKitVMCreate simLib simSupplied simConfig simIdle).d.uuid =
        some "123e4567-e89b-42d3-a456-426614174000") ∧
    ((resourceHyperKitVMCreate simLib simData simConfig simIdle).d.id =
        "6ba7b810-9dad-41d1-80b4-00c04fd430c8" ∧
      (resourceHyperKitVMCreate simLib simData simConfig simIdle).d.uuid =
        some "6ba7b810-9dad-41d1-80b4-00c04fd430c8") :=
  ⟨((create_identity_supplied_or_generated simLib simSupplied simConfig simIdle).1
      _ rfl).2 rfl,
    ((create_identity_supplied_or_generated simLib simData simConfig simIdle).2
      _ _ rfl rfl).2 rfl⟩

end HyperKitProvider
